import Mathlib

/-!
Verification of the block-grid shape-layout algorithm of the
Quantumlibrary sum visualizer (`addShapesForEquation` and `clearShapes`
in the WebXR calculator component).  The layout arithmetic is modelled
over `ℚ` (the source constants `1.2`, `3`, `1` are exact decimals), the
loop body becomes a per-index function, and the effectful wrapper
becomes a step on an explicit scene state.
-/

set_option maxRecDepth 20000

namespace Quantumlibrary

/-- Tag of a unit: `orange` for the first operand's units, `blue` for the
second's (source: `const color = i < num1 ? orangeColor : blueColor`).
The spec calls these FIRST and SECOND respectively. -/
inductive ShapeColor where
  | orange : ShapeColor
  | blue : ShapeColor
deriving DecidableEq, Repr

/-- One placed cube, with the loop's intermediate cell assignment recorded
alongside the final position (source: loop body of `addShapesForEquation`,
lines 156-199). -/
structure Unit3 where
  color : ShapeColor
  currentBlockIndex : ℕ
  indexInBlock : ℕ
  xInBlock : ℕ
  yInBlock : ℕ
  zInBlock : ℕ
  finalX : ℚ
  finalY : ℚ
  finalZ : ℚ
deriving DecidableEq, Repr

/-- Source constant `const boxSize = 1`. -/
def boxSize : ℚ := 1

/-- Source constant `const spacing = 1.2`, exactly `6/5`. -/
def spacing : ℚ := 6 / 5

/-- Source constant `const gridX_dim = 5`. -/
def gridX_dim : ℕ := 5

/-- Source constant `const gridY_dim = 5`. -/
def gridY_dim : ℕ := 5

/-- Source constant `const gridZ_dim = 5`. -/
def gridZ_dim : ℕ := 5

/-- Source constant `maxShapesPerBlock = gridX_dim * gridY_dim * gridZ_dim`
(= 125). -/
def maxShapesPerBlock : ℕ := gridX_dim * gridY_dim * gridZ_dim

/-- Source constant `blockSpacingX = (gridX_dim * spacing) + 3` (line 138). -/
def blockSpacingX : ℚ := (gridX_dim : ℚ) * spacing + 3

/-- Source line 137, `numBlocks = Math.ceil(totalShapes / maxShapesPerBlock)`,
as a natural-number ceiling. -/
def numBlocks (totalShapes : ℕ) : ℕ :=
  (totalShapes + maxShapesPerBlock - 1) / maxShapesPerBlock

/-- Source line 145, `columnsInLastBlock`:
`lastBlockShapes === 0 && totalShapes > 0 ? gridX_dim :
 (lastBlockShapes > 0 ? (lastBlockShapes - 1) % gridX_dim + 1 : 0)`. -/
def columnsInLastBlock (totalShapes : ℕ) : ℕ :=
  let lastBlockShapes := totalShapes % maxShapesPerBlock
  if lastBlockShapes = 0 ∧ totalShapes > 0 then gridX_dim
  else if lastBlockShapes > 0 then (lastBlockShapes - 1) % gridX_dim + 1
  else 0

/-- Source lines 141-151, `totalSceneWidth`: width of the full blocks plus
the occupied width of the last block. -/
def totalSceneWidth (totalShapes : ℕ) : ℚ :=
  if numBlocks totalShapes > 0 then
    ((numBlocks totalShapes - 1 : ℕ) : ℚ) * blockSpacingX +
      (if columnsInLastBlock totalShapes > 0 then
        ((columnsInLastBlock totalShapes - 1 : ℕ) : ℚ) * spacing + boxSize
      else 0)
  else 0

/-- Source line 153, `const overallStartX = -totalSceneWidth / 2`. -/
def overallStartX (totalShapes : ℕ) : ℚ := -totalSceneWidth totalShapes / 2

/-- The body of the `for` loop of `addShapesForEquation` (source lines
156-199) for index `i`: color choice, block/cell assignment, per-block
centering offsets and final position. -/
def unitAt (num1 num2 i : ℕ) : Unit3 :=
  let totalShapes := num1 + num2
  let color := if i < num1 then ShapeColor.orange else ShapeColor.blue
  let currentBlockIndex := i / maxShapesPerBlock
  let indexInBlock := i % maxShapesPerBlock
  let xInBlock := indexInBlock % gridX_dim
  let yInBlock := (indexInBlock / gridX_dim) % gridY_dim
  let zInBlock := indexInBlock / (gridX_dim * gridY_dim)
  let blockCenterOffsetX : ℚ := ((gridX_dim - 1 : ℕ) : ℚ) * spacing / 2
  let blockCenterOffsetY : ℚ := ((gridY_dim - 1 : ℕ) : ℚ) * spacing / 2
  let blockCenterOffsetZ : ℚ := ((gridZ_dim - 1 : ℕ) : ℚ) * spacing / 2
  let finalX : ℚ := overallStartX totalShapes +
    (currentBlockIndex : ℚ) * blockSpacingX +
    (xInBlock : ℚ) * spacing - blockCenterOffsetX
  let finalY : ℚ := (yInBlock : ℚ) * spacing - blockCenterOffsetY
  let finalZ : ℚ := (zInBlock : ℚ) * spacing - blockCenterOffsetZ
  ⟨color, currentBlockIndex, indexInBlock, xInBlock, yInBlock, zInBlock,
    finalX, finalY, finalZ⟩

/-- The pure core of `addShapesForEquation`: the ordered sequence of units
emitted by the loop `for (let i = 0; i < totalShapes; i++)` (the spec's
`computeLayout(count1, count2)`). -/
def computeLayout (num1 num2 : ℕ) : List Unit3 :=
  (List.range (num1 + num2)).map (unitAt num1 num2)

/-- Scene state visible to `clearShapes` / `addShapesForEquation`:
whether `sceneRef.current` is set, whether `textureLoaded` is true,
whether `textureRef.current` is set, and the contents of
`shapeMeshesRef.current`. -/
structure SceneState where
  scenePresent : Bool
  textureLoaded : Bool
  textureRefPresent : Bool
  shapes : List Unit3
deriving DecidableEq, Repr

/-- Model of `clearShapes` (source lines 99-114): early-returns when
`sceneRef.current` is absent, otherwise removes every mesh and empties
`shapeMeshesRef.current`. -/
def clearShapes (s : SceneState) : SceneState :=
  if s.scenePresent then { s with shapes := [] } else s

/-- Model of `addShapesForEquation` (source lines 117-200) as a state step:
first `clearShapes`, then the readiness guard
`if (!sceneRef.current || !textureLoaded || !textureRef.current) return`,
then the emission loop. -/
def addShapesForEquation (num1 num2 : ℕ) (s : SceneState) : SceneState :=
  let s1 := clearShapes s
  if !s1.scenePresent || !s1.textureLoaded || !s1.textureRefPresent then s1
  else { s1 with shapes := computeLayout num1 num2 }

/-- A concrete unit used to populate example prior states. -/
def exampleUnit : Unit3 := unitAt 1 0 0

/-- Indexing the emitted sequence: entry `i` is the loop body at `i`. -/
lemma getElem?_computeLayout {num1 num2 i : ℕ} (h : i < num1 + num2) :
    (computeLayout num1 num2)[i]? = some (unitAt num1 num2 i) := by
  simp [computeLayout, List.getElem?_range h]

/-- Counting indices below `n` whose block index is `b`. -/
lemma countP_range_div (b n : ℕ) :
    (List.range n).countP (fun i => i / 125 == b)
      = min n (125 * (b + 1)) - min n (125 * b) := by
  induction n with
  | zero => simp
  | succ n ih =>
    rw [List.range_succ, List.countP_append, ih]
    by_cases h : n / 125 = b
    · simp [List.countP_cons, h]
      omega
    · simp [List.countP_cons, h]
      omega

/-- C2: for every pair of non-negative integers, the layout computation
emits exactly `count1 + count2` units, one per index in
`[0, count1 + count2)`. -/
theorem C2_length (num1 num2 : ℕ) : (computeLayout num1 num2).length = num1 + num2 := by
  simp [computeLayout]

/-- C1: for non-negative inputs with positive total, the unit at index `i`
has exactly the spec's closed-form position:
`Y = yCell*spacing - (gridY-1)*spacing/2`,
`Z = zCell*spacing - (gridZ-1)*spacing/2` (the same constant centering
offsets for every block, including a partially filled last one), and
`X = overallStartX + blockIndex*blockSpacingX + xCell*spacing -
(gridX-1)*spacing/2` with `overallStartX = -totalSceneWidth/2` and
`blockSpacingX = gridX*spacing + blockGap`, where `spacing = 1.2`,
`blockGap = 3`, `unitSize = 1` and `gridX = gridY = gridZ = 5`. -/
theorem C1_positions (num1 num2 i : ℕ) (_hpos : 0 < num1 + num2) (hi : i < num1 + num2) :
    ((computeLayout num1 num2)[i]?).map Unit3.finalY
      = some (((i % 125 / 5 % 5 : ℕ) : ℚ) * spacing - ((gridY_dim : ℚ) - 1) * spacing / 2) ∧
    ((computeLayout num1 num2)[i]?).map Unit3.finalZ
      = some (((i % 125 / 25 : ℕ) : ℚ) * spacing - ((gridZ_dim : ℚ) - 1) * spacing / 2) ∧
    ((computeLayout num1 num2)[i]?).map Unit3.finalX
      = some (overallStartX (num1 + num2)
          + ((i / 125 : ℕ) : ℚ) * ((gridX_dim : ℚ) * spacing + 3)
          + ((i % 125 % 5 : ℕ) : ℚ) * spacing
          - ((gridX_dim : ℚ) - 1) * spacing / 2) ∧
    overallStartX (num1 + num2) = -totalSceneWidth (num1 + num2) / 2 ∧
    blockSpacingX = (gridX_dim : ℚ) * spacing + 3 ∧
    spacing = 6 / 5 ∧ boxSize = 1 ∧ gridX_dim = 5 ∧ gridY_dim = 5 ∧ gridZ_dim = 5 := by
  rw [getElem?_computeLayout hi]
  refine ⟨?_, ?_, ?_, rfl, ?_, rfl, rfl, rfl, rfl, rfl⟩
  · norm_num [unitAt, spacing, gridX_dim, gridY_dim, gridZ_dim, maxShapesPerBlock]
  · norm_num [unitAt, spacing, gridX_dim, gridY_dim, gridZ_dim, maxShapesPerBlock]
  · norm_num [unitAt, spacing, gridX_dim, gridY_dim, gridZ_dim, maxShapesPerBlock, blockSpacingX]
  · norm_num [blockSpacingX, gridX_dim, spacing]

/-- Witness for C1 at `(count1, count2, i) = (7, 9, 3)`. -/
theorem C1_witness :
    0 < 7 + 9 ∧
    (((computeLayout 7 9)[3]?).map Unit3.finalY
      = some (((3 % 125 / 5 % 5 : ℕ) : ℚ) * spacing - ((gridY_dim : ℚ) - 1) * spacing / 2) ∧
    ((computeLayout 7 9)[3]?).map Unit3.finalZ
      = some (((3 % 125 / 25 : ℕ) : ℚ) * spacing - ((gridZ_dim : ℚ) - 1) * spacing / 2) ∧
    ((computeLayout 7 9)[3]?).map Unit3.finalX
      = some (overallStartX (7 + 9)
          + ((3 / 125 : ℕ) : ℚ) * ((gridX_dim : ℚ) * spacing + 3)
          + ((3 % 125 % 5 : ℕ) : ℚ) * spacing
          - ((gridX_dim : ℚ) - 1) * spacing / 2) ∧
    overallStartX (7 + 9) = -totalSceneWidth (7 + 9) / 2 ∧
    blockSpacingX = (gridX_dim : ℚ) * spacing + 3 ∧
    spacing = 6 / 5 ∧ boxSize = 1 ∧ gridX_dim = 5 ∧ gridY_dim = 5 ∧ gridZ_dim = 5) :=
  ⟨by decide, C1_positions 7 9 3 (by decide) (by decide)⟩

/-- C3: the first `count1` units (in emission order) are tagged FIRST
(orange) and the rest SECOND (blue); in particular `computeLayout 7 9`
yields 16 units in one block, units 0-6 orange and units 7-15 blue. -/
theorem C3_tags :
    (∀ num1 num2 i : ℕ, i < num1 + num2 →
      ((computeLayout num1 num2)[i]?).map Unit3.color
        = some (if i < num1 then ShapeColor.orange else ShapeColor.blue)) ∧
    (computeLayout 7 9).length = 16 ∧
    ((computeLayout 7 9).all fun u => u.currentBlockIndex == 0) = true ∧
    (∀ i : ℕ, i < 7 →
      ((computeLayout 7 9)[i]?).map Unit3.color = some ShapeColor.orange) ∧
    (∀ i : ℕ, 7 ≤ i → i < 16 →
      ((computeLayout 7 9)[i]?).map Unit3.color = some ShapeColor.blue) := by
  refine ⟨?_, by simp [computeLayout], by decide, ?_, ?_⟩
  · intro num1 num2 i hi
    rw [getElem?_computeLayout hi]
    simp [unitAt]
  · intro i hi
    rw [getElem?_computeLayout (show i < 7 + 9 by omega)]
    simp [unitAt, hi]
  · intro i hi1 hi2
    rw [getElem?_computeLayout (show i < 7 + 9 by omega)]
    simp [unitAt]
    omega

/-- Witness for C3 at `(count1, count2, i) = (7, 9, 2)`. -/
theorem C3_witness :
    ((computeLayout 7 9)[2]?).map Unit3.color
      = some (if 2 < 7 then ShapeColor.orange else ShapeColor.blue) :=
  C3_tags.1 7 9 2 (by decide)

/-- C4: each unit at index `i` is assigned `blockIndex = i / 125`,
`indexInBlock = i % 125` and cells `xCell = indexInBlock % 5`,
`yCell = indexInBlock / 5 % 5`, `zCell = indexInBlock / 25`; no two units
share a `(blockIndex, indexInBlock)` pair, and every block except
possibly the last contains exactly 125 units. -/
theorem C4_blocks (num1 num2 : ℕ) :
    (∀ i : ℕ, i < num1 + num2 →
      ((computeLayout num1 num2)[i]?).map
          (fun u => (u.currentBlockIndex, u.indexInBlock, u.xInBlock, u.yInBlock, u.zInBlock))
        = some (i / 125, i % 125, i % 125 % 5, i % 125 / 5 % 5, i % 125 / 25)) ∧
    (∀ i j : ℕ, i < num1 + num2 → j < num1 + num2 → i ≠ j →
      ((computeLayout num1 num2)[i]?).map (fun u => (u.currentBlockIndex, u.indexInBlock))
        ≠ ((computeLayout num1 num2)[j]?).map (fun u => (u.currentBlockIndex, u.indexInBlock))) ∧
    (∀ b : ℕ, b + 1 < numBlocks (num1 + num2) →
      ((computeLayout num1 num2).countP fun u => u.currentBlockIndex == b) = 125) := by
  refine ⟨?_, ?_, ?_⟩
  · intro i hi
    rw [getElem?_computeLayout hi]
    simp [unitAt, maxShapesPerBlock, gridX_dim, gridY_dim, gridZ_dim]
  · intro i j hi hj hij h
    rw [getElem?_computeLayout hi, getElem?_computeLayout hj] at h
    simp only [Option.map_some', Option.some.injEq, Prod.mk.injEq] at h
    have h1 : i / 125 = j / 125 := h.1
    have h2 : i % 125 = j % 125 := h.2
    omega
  · intro b hb
    rw [computeLayout, List.countP_map]
    have hpred : ((fun u => u.currentBlockIndex == b) ∘ unitAt num1 num2)
        = (fun i => i / 125 == b) := rfl
    rw [hpred, countP_range_div]
    simp only [numBlocks, maxShapesPerBlock, gridX_dim, gridY_dim, gridZ_dim] at hb
    omega

/-- Witness for C4 at `(count1, count2, i) = (126, 0, 3)`. -/
theorem C4_witness :
    ((computeLayout 126 0)[3]?).map
        (fun u => (u.currentBlockIndex, u.indexInBlock, u.xInBlock, u.yInBlock, u.zInBlock))
      = some (3 / 125, 3 % 125, 3 % 125 % 5, 3 % 125 / 5 % 5, 3 % 125 / 25) :=
  (C4_blocks 126 0).1 3 (by decide)

/-- C5 (counter-evidence): for inputs `(5, 0)` the emitted X coordinates
are `{-5.3, -4.1, -2.9, -1.7, -0.5}`; the value `-5.3` occurs but its
mirror `5.3` does not, so the multiset of X coordinates is not symmetric
about 0 (it is symmetric about `-2.9`). -/
theorem C5_x_not_symmetric :
    ((-53 / 10 : ℚ) ∈ (computeLayout 5 0).map Unit3.finalX) ∧
    ((53 / 10 : ℚ) ∉ (computeLayout 5 0).map Unit3.finalX) := by
  have hxs : (computeLayout 5 0).map Unit3.finalX
      = [-53/10, -41/10, -29/10, -17/10, -1/2] := by
    have h5 : List.range (5 + 0) = [0, 1, 2, 3, 4] := rfl
    rw [computeLayout, h5]
    norm_num [unitAt, overallStartX, totalSceneWidth, numBlocks, columnsInLastBlock,
      maxShapesPerBlock, blockSpacingX, spacing, boxSize, gridX_dim, gridY_dim, gridZ_dim]
  rw [hxs]
  norm_num

/-- C6: boundary behaviour — `computeLayout 0 0` is empty;
`computeLayout 125 0` occupies exactly one block (every unit has block
index 0); `computeLayout 126 0` occupies exactly two blocks, with exactly
one unit (the one at index 125) in the second block. -/
theorem C6_boundaries :
    computeLayout 0 0 = [] ∧
    numBlocks (125 + 0) = 1 ∧
    ((computeLayout 125 0).all fun u => u.currentBlockIndex == 0) = true ∧
    numBlocks (126 + 0) = 2 ∧
    ((computeLayout 126 0).all fun u => u.currentBlockIndex == 0 || u.currentBlockIndex == 1) = true ∧
    ((computeLayout 126 0).countP fun u => u.currentBlockIndex == 1) = 1 ∧
    ((computeLayout 126 0)[125]?).map Unit3.currentBlockIndex = some 1 := by
  refine ⟨by decide, by decide, by decide, by decide, by decide, by decide, by decide⟩

/-- C7: the layout computation is deterministic — the pure core is a
function of its inputs, and two runs of the state step from any two ready
prior states produce identical shape sequences. -/
theorem C7_deterministic :
    (∀ num1 num2 : ℕ, computeLayout num1 num2 = computeLayout num1 num2) ∧
    (∀ num1 num2 : ℕ, ∀ s t : SceneState,
      s.scenePresent = true → s.textureLoaded = true → s.textureRefPresent = true →
      t.scenePresent = true → t.textureLoaded = true → t.textureRefPresent = true →
      (addShapesForEquation num1 num2 s).shapes = (addShapesForEquation num1 num2 t).shapes) := by
  refine ⟨fun _ _ => rfl, ?_⟩
  intro num1 num2 s t hs1 hs2 hs3 ht1 ht2 ht3
  simp [addShapesForEquation, clearShapes, hs1, hs2, hs3, ht1, ht2, ht3]

/-- Witness for C7 at two ready states with different prior shape lists. -/
theorem C7_witness :
    (addShapesForEquation 2 1 ⟨true, true, true, [exampleUnit]⟩).shapes
      = (addShapesForEquation 2 1 ⟨true, true, true, []⟩).shapes :=
  C7_deterministic.2 2 1 ⟨true, true, true, [exampleUnit]⟩ ⟨true, true, true, []⟩
    rfl rfl rfl rfl rfl rfl

/-- C8: when the scene is present and the texture ready, re-invocation
fully replaces the prior layout — the post-state shape list is exactly
the new layout, independent of whatever was there before. -/
theorem C8_replaces (num1 num2 : ℕ) (s : SceneState)
    (h1 : s.scenePresent = true) (h2 : s.textureLoaded = true)
    (h3 : s.textureRefPresent = true) :
    (addShapesForEquation num1 num2 s).shapes = computeLayout num1 num2 := by
  simp [addShapesForEquation, clearShapes, h1, h2, h3]

/-- Witness for C8 at a ready state holding a stale shape. -/
theorem C8_witness :
    (addShapesForEquation 2 1 ⟨true, true, true, [exampleUnit]⟩).shapes
      = computeLayout 2 1 :=
  C8_replaces 2 1 ⟨true, true, true, [exampleUnit]⟩ rfl rfl rfl

/-- C9 counterexample: when the scene is absent, `clearShapes` itself
early-returns, so a call with a non-empty prior shape list leaves that
list untouched — not the empty list the claim asserts. -/
theorem C9_counterexample :
    (addShapesForEquation 1 0 ⟨false, true, true, [exampleUnit]⟩).shapes = [exampleUnit] ∧
    (addShapesForEquation 1 0 ⟨false, true, true, [exampleUnit]⟩).shapes ≠ [] := by
  constructor
  · simp [addShapesForEquation, clearShapes]
  · simp [addShapesForEquation, clearShapes]

/-- C9 (amended): if the scene is present but the texture is not ready,
the call clears all previously placed shapes before hitting the readiness
guard and returns with an empty shape list; if the scene is absent, the
`clearShapes` guard fires first and the whole state (including the prior
shape list) is preserved unchanged. -/
theorem C9_amended_early_exit :
    (∀ num1 num2 : ℕ, ∀ s : SceneState, s.scenePresent = true →
      s.textureLoaded = false ∨ s.textureRefPresent = false →
      (addShapesForEquation num1 num2 s).shapes = []) ∧
    (∀ num1 num2 : ℕ, ∀ s : SceneState, s.scenePresent = false →
      addShapesForEquation num1 num2 s = s) := by
  constructor
  · intro num1 num2 s hs hguard
    rcases hguard with h | h <;> simp [addShapesForEquation, clearShapes, hs, h]
  · intro num1 num2 s hs
    simp [addShapesForEquation, clearShapes, hs]

/-- Witness for the amended C9: scene present, texture not loaded, prior
shape list non-empty — the post-state shape list is empty. -/
theorem C9_witness :
    (addShapesForEquation 2 1 ⟨true, false, true, [exampleUnit]⟩).shapes = [] :=
  C9_amended_early_exit.1 2 1 ⟨true, false, true, [exampleUnit]⟩ rfl (Or.inl rfl)

/-- C10: noninterference of the operand split on geometry — for two splits
of the same total, the unit at each index has the same position in both
runs; the split affects only the color tag. -/
theorem C10_split_noninterference (a1 b1 a2 b2 i : ℕ)
    (ht : a1 + b1 = a2 + b2) (hi : i < a1 + b1) :
    ((computeLayout a1 b1)[i]?).map (fun u => (u.finalX, u.finalY, u.finalZ))
      = ((computeLayout a2 b2)[i]?).map (fun u => (u.finalX, u.finalY, u.finalZ)) := by
  rw [getElem?_computeLayout hi, getElem?_computeLayout (ht ▸ hi)]
  simp [unitAt, ht]

/-- Witness for C10 at splits `(3, 2)` and `(1, 4)` of total 5, index 1. -/
theorem C10_witness :
    ((computeLayout 3 2)[1]?).map (fun u => (u.finalX, u.finalY, u.finalZ))
      = ((computeLayout 1 4)[1]?).map (fun u => (u.finalX, u.finalY, u.finalZ)) :=
  C10_split_noninterference 3 2 1 4 1 (by decide) (by decide)

end Quantumlibrary
